import Mathlib

/-!
# Product catalog client (src/App.jsx)

A shallow embedding of the catalog client and of the two stateful components
of src/App.jsx (ProductList and AdminPanel), together with the form
initialiser of ProductForm.

* JavaScript values are an inductive type; numbers are the finite values,
  kept as rationals (the program never does arithmetic on them, it only tests
  them for truthiness and passes them on).
* An async function is a tree of the effects it performs; awaiting a fetch is
  a node whose continuation receives the settled result, and calling an async
  function without awaiting it is a node of its own.
* An event loop runs such a tree against a service and records the order in
  which requests are issued and completed.
-/

namespace App

/-! ## JavaScript values -/

/-- The values the program handles: the JSON values, plus undefined. -/
inductive JSValue where
  | undefined
  | null
  | bool (b : Bool)
  | num (x : ℚ)
  | str (s : String)
  | arr (items : List JSValue)
  | obj (props : List (String × JSValue))

/-- A thrown value. -/
inductive JSError where
  | typeError (message : String)
  | syntaxError (message : String)
deriving DecidableEq, Repr

namespace JSValue

/-- ToBoolean: the values that count as false are undefined, null, false,
zero and the empty string. -/
def toBoolean : JSValue → Bool
  | undefined => false
  | null => false
  | bool b => b
  | num x => decide (x ≠ 0)
  | str s => decide (s ≠ "")
  | arr _ => true
  | obj _ => true

/-- The operator a || b: a when a is truthy, b otherwise. -/
def or (a b : JSValue) : JSValue :=
  if a.toBoolean then a else b

/-- Looking a key up in the own properties of an object; a key that is not
there reads as undefined. -/
def lookup (key : String) : List (String × JSValue) → JSValue
  | [] => undefined
  | (k, v) :: rest => if k = key then v else lookup key rest

/-- Property read v.key for a data key (id, name, price, quantity). Reading a
property of null or undefined throws a TypeError; primitives and arrays have
no such property. -/
def get (v : JSValue) (key : String) : Except JSError JSValue :=
  match v with
  | undefined =>
    .error (.typeError ("Cannot read properties of undefined (reading '" ++ key ++ "')"))
  | null =>
    .error (.typeError ("Cannot read properties of null (reading '" ++ key ++ "')"))
  | obj props => .ok (lookup key props)
  | _ => .ok undefined

/-- A parameter default (the "= d" of a destructured parameter): it replaces
undefined only; null is passed through. -/
def withDefault (v d : JSValue) : JSValue :=
  match v with
  | undefined => d
  | _ => v

/-- The digits after the decimal point of r / den (with r < den), at most as
many as the fuel allows. -/
def fracDigits (den : Nat) : Nat → Nat → String
  | 0, _ => ""
  | fuel + 1, r =>
    if r = 0 then "" else toString (r * 10 / den) ++ fracDigits den fuel (r * 10 % den)

/-- Number to string, in plain decimal writing (the exponent form that very
large and very small numbers take is not modelled). -/
def numToStr (x : ℚ) : String :=
  let n := x.num.natAbs
  (if x.num < 0 then "-" else "") ++ toString (n / x.den) ++
    (if n % x.den = 0 then "" else "." ++ fracDigits x.den 17 (n % x.den))

mutual
/-- ToString, as a template literal applies it to an interpolated value. -/
def toStr : JSValue → String
  | undefined => "undefined"
  | null => "null"
  | bool b => if b then "true" else "false"
  | num x => numToStr x
  | str s => s
  | arr items => joinItems items
  | obj _ => "[object Object]"
/-- The elements of an array joined by commas; null and undefined elements
are written as nothing. -/
def joinItems : List JSValue → String
  | [] => ""
  | [undefined] => ""
  | [null] => ""
  | [v] => toStr v
  | undefined :: rest => "," ++ joinItems rest
  | null :: rest => "," ++ joinItems rest
  | v :: rest => toStr v ++ "," ++ joinItems rest
end

mutual
/-- Equality of two values, by structure. -/
def beq : JSValue → JSValue → Bool
  | undefined, undefined => true
  | null, null => true
  | bool a, bool b => decide (a = b)
  | num a, num b => decide (a = b)
  | str a, str b => decide (a = b)
  | arr a, arr b => beqItems a b
  | obj a, obj b => beqProps a b
  | _, _ => false
/-- Equality of two arrays, element by element. -/
def beqItems : List JSValue → List JSValue → Bool
  | [], [] => true
  | a :: as, b :: bs => beq a b && beqItems as bs
  | _, _ => false
/-- Equality of two property lists, entry by entry. -/
def beqProps : List (String × JSValue) → List (String × JSValue) → Bool
  | [], [] => true
  | (k, a) :: as, (l, b) :: bs => decide (k = l) && beq a b && beqProps as bs
  | _, _ => false
end

end JSValue

open JSValue

/-! ## ProductForm -/

/-- The initial value of formData in ProductForm (lines 98 to 104), given the
initialData property the component was rendered with. -/
def ProductForm.formData (initialDataProp : JSValue) : Except JSError JSValue := do
  let initialData := initialDataProp.withDefault (obj [])
  let id ← initialData.get "id"
  let name ← initialData.get "name"
  let price ← initialData.get "price"
  let quantity ← initialData.get "quantity"
  pure (obj [("id", id.or (str "")), ("name", name.or (str "")),
    ("price", price.or (str "")), ("quantity", quantity.or (str ""))])

/-- A product record as the service sends it. -/
def product (id name : String) (price quantity : ℚ) : JSValue :=
  obj [("id", str id), ("name", str name), ("price", num price), ("quantity", num quantity)]

/-! ## Requests and responses -/

/-- JSON text on the wire, kept as the value it encodes: JSON.stringify
produces it and JSON.parse (or the json method of a response) reads it back. -/
structure JsonText where
  encodes : JSValue

/-- JSON.stringify. -/
def JSON.stringify (v : JSValue) : JsonText := ⟨v⟩

/-- JSON.parse. -/
def JSON.parse (t : JsonText) : JSValue := t.encodes

/-- The second argument of fetch; every field may be left out. -/
structure RequestInit where
  method : Option String := none
  headers : List (String × String) := []
  body : Option JsonText := none

/-- One call of fetch: the URL and the options it was given. -/
structure Request where
  url : String
  init : RequestInit := {}

/-- The method a request goes out with: fetch uses GET when none is given. -/
def Request.method (req : Request) : String := req.init.method.getD "GET"

/-- The body a request goes out with, if any. -/
def Request.body (req : Request) : Option JsonText := req.init.body

/-- What fetch resolves to: a status, and a body that is JSON text or is not
(none stands for a body that does not parse). -/
structure Response where
  status : Nat := 200
  body : Option JsonText

/-- How a call of fetch settles: rejected (no response arrived) or resolved. -/
abbrev FetchResult := Except JSError Response

/-! ## Async functions -/

/-- The body of an async function over component state S, as the tree of what
it does next. -/
inductive Async (S : Type) where
  /-- The function returns v: its promise resolves. -/
  | resolve (v : JSValue)
  /-- The function throws e: its promise rejects. -/
  | reject (e : JSError)
  /-- The function calls fetch and awaits the result; the continuation runs
  once the call has settled. -/
  | fetch (req : Request) (k : FetchResult → Async S)
  /-- A state setter (setProducts and the like) is called. -/
  | setState (f : S → S) (k : Async S)
  /-- The call console.error(label, e). -/
  | consoleError (label : String) (e : JSError) (k : Async S)
  /-- Another async function is called and its promise is dropped (not
  awaited); the caller goes on as soon as the callee first suspends. -/
  | call (callee : Async S) (k : Async S)

namespace Async

variable {S : Type}

/-- The statement "const res = await fetch(url, init)": a rejected fetch is
thrown at the await. -/
def awaitFetch (req : Request) (k : Response → Async S) : Async S :=
  .fetch req fun r =>
    match r with
    | .ok res => k res
    | .error e => .reject e

/-- The statement "const x = await p" for the promise of an async function p:
the rest runs with the value p resolves to, and a rejection of p is thrown. -/
def await : Async S → (JSValue → Async S) → Async S
  | .resolve v, rest => rest v
  | .reject e, _ => .reject e
  | .fetch req k, rest => .fetch req fun r => await (k r) rest
  | .setState f k, rest => .setState f (await k rest)
  | .consoleError l e k, rest => .consoleError l e (await k rest)
  | .call c k, rest => .call c (await k rest)

/-- The block "try body catch (error) handler". -/
def tryCatch : Async S → (JSError → Async S) → Async S
  | .resolve v, _ => .resolve v
  | .reject e, handler => handler e
  | .fetch req k, handler => .fetch req fun r => tryCatch (k r) handler
  | .setState f k, handler => .setState f (tryCatch k handler)
  | .consoleError l e k, handler => .consoleError l e (tryCatch k handler)
  | .call c k, handler => .call c (tryCatch k handler)

/-- The block "try body finally cleanup": cleanup runs however body ends, and
the way body ended is kept unless cleanup itself throws. -/
def tryFinally : Async S → Async S → Async S
  | .resolve v, cleanup => await cleanup fun _ => .resolve v
  | .reject e, cleanup => await cleanup fun _ => .reject e
  | .fetch req k, cleanup => .fetch req fun r => tryFinally (k r) cleanup
  | .setState f k, cleanup => .setState f (tryFinally k cleanup)
  | .consoleError l e k, cleanup => .consoleError l e (tryFinally k cleanup)
  | .call c k, cleanup => .call c (tryFinally k cleanup)

/-- The end of a function body with no return statement. -/
def done : Async S := .resolve .undefined

end Async

/-- The method res.json() of a response: the decoded body, or a SyntaxError
when the body is not JSON. -/
def Response.json {S : Type} (res : Response) : Async S :=
  match res.body with
  | some t => .resolve (JSON.parse t)
  | none => .reject (.syntaxError "Unexpected token in JSON")

/-! ## Catalog client (lines 17 to 44) -/

def BASE_URL : String := "http://localhost:3000"

namespace api

variable {S : Type}

/-- The call fetch(BASE_URL/products) of fetchProducts. -/
def fetchProductsRequest : Request :=
  { url := BASE_URL ++ "/products" }

/-- The call of fetch in createProduct. -/
def createProductRequest (product : JSValue) : Request :=
  { url := BASE_URL ++ "/products"
    init := { method := some "POST"
              headers := [("Content-Type", "application/json")]
              body := some (JSON.stringify product) } }

/-- The call of fetch in updateProduct. -/
def updateProductRequest (id product : JSValue) : Request :=
  { url := BASE_URL ++ "/products/" ++ id.toStr
    init := { method := some "PUT"
              headers := [("Content-Type", "application/json")]
              body := some (JSON.stringify product) } }

/-- The call of fetch in deleteProduct. -/
def deleteProductRequest (id : JSValue) : Request :=
  { url := BASE_URL ++ "/products/" ++ id.toStr
    init := { method := some "DELETE" } }

def fetchProducts : Async S :=
  .awaitFetch fetchProductsRequest fun res => res.json

def createProduct (product : JSValue) : Async S :=
  .awaitFetch (createProductRequest product) fun res => res.json

def updateProduct (id product : JSValue) : Async S :=
  .awaitFetch (updateProductRequest id product) fun res => res.json

def deleteProduct (id : JSValue) : Async S :=
  .awaitFetch (deleteProductRequest id) fun _ => .done

end api

/-! ## ProductList (lines 57 to 73) -/

namespace ProductList

/-- The state of ProductList. -/
structure State where
  products : JSValue
  loading : Bool

/-- The state a freshly mounted ProductList starts in. -/
def State.initial : State := { products := arr [], loading := true }

def setProducts (data : JSValue) (s : State) : State := { s with products := data }

def setLoading (b : Bool) (s : State) : State := { s with loading := b }

/-- The function loadProducts defined in the effect of ProductList. -/
def loadProducts : Async State :=
  .tryFinally
    (.tryCatch
      (.await api.fetchProducts fun data =>
        .setState (setProducts data) .done)
      fun error => .consoleError "Failed to load products:" error .done)
    (.setState (setLoading false) .done)

/-- The effect run on mount: it calls loadProducts and drops the promise. -/
def onMount : Async State :=
  .call loadProducts .done

end ProductList

/-! ## AdminPanel (lines 156 to 183) -/

namespace AdminPanel

/-- The state of AdminPanel. -/
structure State where
  products : JSValue
  selectedProduct : JSValue

/-- The state a freshly mounted AdminPanel starts in. -/
def State.initial : State := { products := arr [], selectedProduct := null }

def setProducts (data : JSValue) (s : State) : State := { s with products := data }

def setSelectedProduct (v : JSValue) (s : State) : State := { s with selectedProduct := v }

def loadProducts : Async State :=
  .await api.fetchProducts fun data =>
    .setState (setProducts data) .done

/-- The effect run on mount. -/
def onMount : Async State :=
  .call loadProducts .done

def handleCreate (formData : JSValue) : Async State :=
  .await (api.createProduct formData) fun _ =>
    .call loadProducts .done

/-- The handler handleUpdate; reading formData.id throws when formData is null
or undefined. -/
def handleUpdate (formData : JSValue) : Async State :=
  match formData.get "id" with
  | .error e => .reject e
  | .ok id =>
    .await (api.updateProduct id formData) fun _ =>
      .call loadProducts (.setState (setSelectedProduct null) .done)

def handleDelete (id : JSValue) : Async State :=
  .await (api.deleteProduct id) fun _ =>
    .call loadProducts .done

/-- The initialData property AdminPanel renders its ProductForm with (line
194). -/
def formInitialData (s : State) : JSValue := s.selectedProduct

/-- The handler AdminPanel gives the form as onSubmit (line 193). -/
def onSubmit (s : State) (formData : JSValue) : Async State :=
  if s.selectedProduct.toBoolean then handleUpdate formData else handleCreate formData

/-- The click handler of the Edit button of a row (line 224). -/
def onEditClick (product : JSValue) : State → State := setSelectedProduct product

/-- The click handler of the Delete button of a row (line 231); reading
product.id throws when the row is null or undefined. -/
def onDeleteClick (product : JSValue) : Async State :=
  match product.get "id" with
  | .error e => .reject e
  | .ok id => handleDelete id

end AdminPanel

/-! ## The event loop -/

/-- The other end of fetch: a service with state σ answers each request with
a settled result and moves to a new state. -/
structure Service (σ : Type) where
  handle : σ → Request → σ × FetchResult

/-- What an observer of one run sees, in order. -/
inductive Event where
  /-- Task t called fetch: the request went out. -/
  | issued (t : Nat) (req : Request)
  /-- The fetch of task t settled with r. -/
  | completed (t : Nat) (req : Request) (r : FetchResult)
  /-- The call console.error(label, e). -/
  | logged (label : String) (e : JSError)
  /-- The promise of task t resolved. -/
  | resolved (t : Nat) (v : JSValue)
  /-- The promise of task t rejected; nothing awaits it, so e is an unhandled
  rejection. -/
  | rejected (t : Nat) (e : JSError)

/-- An async function in the middle of its run: task t, with what is left of
its body. -/
structure Frame (S : Type) where
  t : Nat
  code : Async S

/-- A fetch that has gone out and not yet settled, with the function that
awaits it. -/
structure InFlight (S : Type) where
  t : Nat
  req : Request
  k : FetchResult → Async S

/-- The whole state of a run: the component state, the service, the call
stack (head first), the requests in flight (oldest first) and the trace. -/
structure Machine (S σ : Type) where
  state : S
  server : σ
  stack : List (Frame S)
  inflight : List (InFlight S)
  nextTask : Nat
  trace : List Event

namespace Machine

variable {S σ : Type}

/-- A triggered action: the code runs as task 0 on an empty stack. -/
def start (state : S) (server : σ) (code : Async S) : Machine S σ :=
  { state := state, server := server, stack := [⟨0, code⟩], inflight := [],
    nextTask := 1, trace := [] }

/-- Nothing left to run and nothing in flight. -/
def quiescent (m : Machine S σ) : Prop := m.stack = [] ∧ m.inflight = []

/-- One step. The function on top of the stack runs until it returns, throws
or awaits a fetch, and then the caller below it goes on; with an empty stack
the oldest request in flight is answered by the service and the function that
awaits it resumes. -/
def step (svc : Service σ) (m : Machine S σ) : Machine S σ :=
  match m.stack with
  | [] =>
    match m.inflight with
    | [] => m
    | p :: rest =>
      let (server, r) := svc.handle m.server p.req
      { m with server := server, stack := [⟨p.t, p.k r⟩], inflight := rest,
               trace := m.trace ++ [.completed p.t p.req r] }
  | ⟨t, code⟩ :: below =>
    match code with
    | .resolve v => { m with stack := below, trace := m.trace ++ [.resolved t v] }
    | .reject e => { m with stack := below, trace := m.trace ++ [.rejected t e] }
    | .fetch req k =>
      { m with stack := below, inflight := m.inflight ++ [⟨t, req, k⟩],
               trace := m.trace ++ [.issued t req] }
    | .setState f k => { m with state := f m.state, stack := ⟨t, k⟩ :: below }
    | .consoleError l e k =>
      { m with stack := ⟨t, k⟩ :: below, trace := m.trace ++ [.logged l e] }
    | .call callee k =>
      { m with stack := ⟨m.nextTask, callee⟩ :: ⟨t, k⟩ :: below, nextTask := m.nextTask + 1 }

/-- The machine after the given number of steps. -/
def run (svc : Service σ) : Nat → Machine S σ → Machine S σ
  | 0, m => m
  | n + 1, m => run svc n (step svc m)

end Machine

/-- The run of one triggered action from a component state and a service
state, for the given number of steps. -/
def exec {S σ : Type} (svc : Service σ) (fuel : Nat) (state : S) (server : σ)
    (code : Async S) : Machine S σ :=
  Machine.run svc fuel (Machine.start state server code)

/-- The requests of a trace in the order they were issued. -/
def issuedRequests : List Event → List Request
  | [] => []
  | .issued _ req :: rest => req :: issuedRequests rest
  | _ :: rest => issuedRequests rest

/-- What the caller of an api function gets from a settled fetch when it
reads the body with res.json(): the decoded value, or the failure. -/
def decoded (r : FetchResult) : Except JSError JSValue :=
  match r with
  | .error e => .error e
  | .ok res =>
    match res.body with
    | some t => .ok (JSON.parse t)
    | none => .error (.syntaxError "Unexpected token in JSON")

/-! ## Services to run against -/

/-- The id of a stored record (undefined when it has none). -/
def recordId (p : JSValue) : JSValue :=
  match p.get "id" with
  | .ok v => v
  | .error _ => undefined

/-- The URL under which the service serves a stored record. -/
def itemUrl (p : JSValue) : String := BASE_URL ++ "/products/" ++ (recordId p).toStr

/-- Modelled from the spec: the remote catalog service, an external
collaborator whose code is not part of the repository. It follows the
protocol table: GET on the collection lists every stored record, POST on the
collection stores the posted record after the others, PUT on a record
replaces it by the posted one, DELETE on a record removes it. Its state is
the list of stored records. -/
def catalog : Service (List JSValue) where
  handle stored req :=
    if req.url = BASE_URL ++ "/products" then
      if req.method = "GET" then
        (stored, .ok { body := some (JSON.stringify (arr stored)) })
      else if req.method = "POST" then
        match req.body with
        | some t => (stored ++ [JSON.parse t], .ok { status := 201, body := some t })
        | none => (stored, .ok { status := 400, body := none })
      else (stored, .ok { status := 404, body := some (JSON.stringify (obj [])) })
    else if req.method = "DELETE" then
      (stored.filter fun p => !decide (itemUrl p = req.url),
        .ok { body := some (JSON.stringify (obj [])) })
    else if req.method = "PUT" then
      match req.body with
      | some t =>
        (stored.map fun p => if itemUrl p = req.url then JSON.parse t else p,
          .ok { body := some t })
      | none => (stored, .ok { status := 400, body := none })
    else (stored, .ok { status := 404, body := some (JSON.stringify (obj [])) })

/-- A service that cannot be reached: every fetch rejects. -/
def offline : Service Unit where
  handle s _ := (s, .error (.typeError "Failed to fetch"))

/-- The reply of a service that refuses a request: status 500, with a JSON
body that has the one field error. -/
def refusal : Response :=
  { status := 500, body := some (JSON.stringify (obj [("error", str "boom")])) }

/-- A service that refuses every request with status 500 and a JSON body. -/
def broken : Service Unit where
  handle s _ := (s, .ok refusal)

/-- A service that lists its records on GET of the collection and refuses
every other request with status 500 and a JSON body, storing nothing. -/
def readOnly : Service (List JSValue) where
  handle stored req :=
    if req.url = BASE_URL ++ "/products" ∧ req.method = "GET" then
      (stored, .ok { body := some (JSON.stringify (arr stored)) })
    else (stored, .ok refusal)

/-! ## Predicates the properties are stated with -/

/-- Two records agree on the field key. -/
def fieldEq (key : String) (a b : JSValue) : Bool :=
  match a.get key, b.get key with
  | .ok x, .ok y => x.beq y
  | _, _ => false

/-- Two records agree on id, name, price and quantity. -/
def sameFields (a b : JSValue) : Bool :=
  fieldEq "id" a b && fieldEq "name" a b && fieldEq "price" a b && fieldEq "quantity" a b

/-- The trace of an action that completes its mutating request mreq with
result r and only then issues the list request: the mutating request and the
list request are the only two requests, in that order, and the trace starts
with the mutating request going out, settling, and the list request going
out. -/
def mutationThenRefresh (trace : List Event) (mreq : Request) (r : FetchResult) : Prop :=
  issuedRequests trace = [mreq, api.fetchProductsRequest] ∧
  ∃ rest, trace =
    .issued 0 mreq :: .completed 0 mreq r :: .issued 1 api.fetchProductsRequest :: rest

/-- The state of AdminPanel once a refresh whose list request settled with r
has run to its end: the decoded list on success, the old state on failure. -/
def AdminPanel.refreshed (st : AdminPanel.State) (r : FetchResult) : AdminPanel.State :=
  match decoded r with
  | .ok data => AdminPanel.setProducts data st
  | .error _ => st

/-- How the promise of a refresh run as task t ends when its list request
settled with r. -/
def refreshEnd (t : Nat) (r : FetchResult) : List Event :=
  match decoded r with
  | .ok _ => [.resolved t .undefined]
  | .error e => [.rejected t e]

/-! ## Basic facts about runs -/

namespace Machine

variable {S σ : Type}

theorem step_of_quiescent (svc : Service σ) (m : Machine S σ) (h : m.quiescent) :
    step svc m = m := by
  obtain ⟨h1, h2⟩ := h
  simp [step, h1, h2]

theorem run_of_quiescent (svc : Service σ) (n : Nat) (m : Machine S σ) (h : m.quiescent) :
    run svc n m = m := by
  induction n with
  | zero => rfl
  | succ n ih => simp [run, step_of_quiescent svc m h, ih]

theorem run_add (svc : Service σ) (a b : Nat) (m : Machine S σ) :
    run svc (a + b) m = run svc b (run svc a m) := by
  induction a generalizing m with
  | zero => simp [run]
  | succ a ih => simp [Nat.succ_add, run, ih]

/-- Once a run has come to rest after n steps, more fuel changes nothing. -/
theorem run_stable (svc : Service σ) (n fuel : Nat) (m : Machine S σ)
    (h : (run svc n m).quiescent) (hf : n ≤ fuel) : run svc fuel m = run svc n m := by
  obtain ⟨k, rfl⟩ := Nat.exists_eq_add_of_le hf
  rw [run_add, run_of_quiescent svc k _ h]

/-- A run that reaches a machine at rest after n steps is at that machine for
every larger number of steps. -/
theorem run_eq_of_rest (svc : Service σ) (n fuel : Nat) (m r : Machine S σ)
    (hrun : run svc n m = r) (hrest : r.quiescent) (hf : n ≤ fuel) : run svc fuel m = r := by
  subst hrun
  exact run_stable svc n fuel m hrest hf

end Machine

/-! ## Runs of the two refresh functions -/

section Runs

variable {σ : Type} (svc : Service σ)

/-- AdminPanel.loadProducts when the list request succeeds with data. -/
theorem AdminPanel.loadProducts_admin_ok (st : AdminPanel.State) (s s1 : σ) (r : FetchResult)
    (data : JSValue) (h : svc.handle s api.fetchProductsRequest = (s1, r))
    (hr : decoded r = .ok data) (fuel : Nat) (hf : 4 ≤ fuel) :
    exec svc fuel st s AdminPanel.loadProducts =
      { state := { products := data, selectedProduct := st.selectedProduct }
        server := s1, stack := [], inflight := [], nextTask := 1
        trace := [.issued 0 api.fetchProductsRequest,
          .completed 0 api.fetchProductsRequest r, .resolved 0 .undefined] } := by
  refine Machine.run_eq_of_rest svc 4 fuel _ _ ?_ ⟨rfl, rfl⟩ hf
  rcases r with e | ⟨status, _ | t⟩ <;> simp [decoded] at hr
  subst hr
  simp [Machine.run, Machine.step, Machine.start, AdminPanel.loadProducts,
    api.fetchProducts, Async.awaitFetch, Async.await, h, Response.json, Async.done,
    AdminPanel.setProducts]

/-- AdminPanel.loadProducts when the list request fails with e: nothing
catches e, the state is not touched. -/
theorem AdminPanel.loadProducts_admin_fail (st : AdminPanel.State) (s s1 : σ) (r : FetchResult)
    (e : JSError) (h : svc.handle s api.fetchProductsRequest = (s1, r))
    (hr : decoded r = .error e) (fuel : Nat) (hf : 3 ≤ fuel) :
    exec svc fuel st s AdminPanel.loadProducts =
      { state := st, server := s1, stack := [], inflight := [], nextTask := 1
        trace := [.issued 0 api.fetchProductsRequest,
          .completed 0 api.fetchProductsRequest r, .rejected 0 e] } := by
  refine Machine.run_eq_of_rest svc 3 fuel _ _ ?_ ⟨rfl, rfl⟩ hf
  rcases r with e1 | ⟨status, _ | t⟩ <;> simp [decoded] at hr <;> subst hr <;>
  simp [Machine.run, Machine.step, Machine.start, AdminPanel.loadProducts,
    api.fetchProducts, Async.awaitFetch, Async.await, h, Response.json]

/-- ProductList.loadProducts when the list request succeeds with data. -/
theorem ProductList.loadProducts_list_ok (st : ProductList.State) (s s1 : σ) (r : FetchResult)
    (data : JSValue) (h : svc.handle s api.fetchProductsRequest = (s1, r))
    (hr : decoded r = .ok data) (fuel : Nat) (hf : 5 ≤ fuel) :
    exec svc fuel st s ProductList.loadProducts =
      { state := { products := data, loading := false }
        server := s1, stack := [], inflight := [], nextTask := 1
        trace := [.issued 0 api.fetchProductsRequest,
          .completed 0 api.fetchProductsRequest r, .resolved 0 .undefined] } := by
  refine Machine.run_eq_of_rest svc 5 fuel _ _ ?_ ⟨rfl, rfl⟩ hf
  rcases r with e | ⟨status, _ | t⟩ <;> simp [decoded] at hr
  subst hr
  simp [Machine.run, Machine.step, Machine.start, ProductList.loadProducts,
    api.fetchProducts, Async.awaitFetch, Async.await, Async.tryCatch, Async.tryFinally, h,
    Response.json, Async.done, ProductList.setProducts, ProductList.setLoading]

/-- ProductList.loadProducts when the list request fails with e: e is caught
and logged, loading is reset, and the promise resolves. -/
theorem ProductList.loadProducts_list_fail (st : ProductList.State) (s s1 : σ) (r : FetchResult)
    (e : JSError) (h : svc.handle s api.fetchProductsRequest = (s1, r))
    (hr : decoded r = .error e) (fuel : Nat) (hf : 5 ≤ fuel) :
    exec svc fuel st s ProductList.loadProducts =
      { state := { products := st.products, loading := false }
        server := s1, stack := [], inflight := [], nextTask := 1
        trace := [.issued 0 api.fetchProductsRequest,
          .completed 0 api.fetchProductsRequest r,
          .logged "Failed to load products:" e, .resolved 0 .undefined] } := by
  refine Machine.run_eq_of_rest svc 5 fuel _ _ ?_ ⟨rfl, rfl⟩ hf
  rcases r with e1 | ⟨status, _ | t⟩ <;> simp [decoded] at hr <;> subst hr <;>
  simp [Machine.run, Machine.step, Machine.start, ProductList.loadProducts,
    api.fetchProducts, Async.awaitFetch, Async.await, Async.tryCatch, Async.tryFinally, h,
    Response.json, Async.done, ProductList.setLoading]

/-! ## Runs of the three handlers of AdminPanel -/

/-- The handler handleCreate when the POST succeeds: the list request goes
out next, and the refresh ends as its result r2 says. -/
theorem AdminPanel.handleCreate_ok (st : AdminPanel.State) (formData : JSValue)
    (s s1 s2 : σ) (r1 r2 : FetchResult) (v : JSValue)
    (h1 : svc.handle s (api.createProductRequest formData) = (s1, r1))
    (hr1 : decoded r1 = .ok v)
    (h2 : svc.handle s1 api.fetchProductsRequest = (s2, r2))
    (fuel : Nat) (hf : 8 ≤ fuel) :
    exec svc fuel st s (AdminPanel.handleCreate formData) =
      { state := AdminPanel.refreshed st r2
        server := s2, stack := [], inflight := [], nextTask := 2
        trace := [.issued 0 (api.createProductRequest formData),
          .completed 0 (api.createProductRequest formData) r1,
          .issued 1 api.fetchProductsRequest, .resolved 0 .undefined,
          .completed 1 api.fetchProductsRequest r2] ++ refreshEnd 1 r2 } := by
  refine Machine.run_eq_of_rest svc 8 fuel _ _ ?_ ⟨rfl, rfl⟩ hf
  rcases r1 with e | ⟨status, _ | t⟩ <;> simp [decoded] at hr1
  subst hr1
  rcases r2 with e2 | ⟨status2, _ | t2⟩ <;>
  simp [Machine.run, Machine.step, Machine.start, AdminPanel.handleCreate,
    AdminPanel.loadProducts, api.createProduct, api.fetchProducts, Async.awaitFetch,
    Async.await, h1, h2, Response.json, Async.done, AdminPanel.setProducts,
    AdminPanel.refreshed, refreshEnd, decoded]

/-- The handler handleCreate when the POST fails with e: the handler stops
there. -/
theorem AdminPanel.handleCreate_fail (st : AdminPanel.State) (formData : JSValue)
    (s s1 : σ) (r1 : FetchResult) (e : JSError)
    (h1 : svc.handle s (api.createProductRequest formData) = (s1, r1))
    (hr1 : decoded r1 = .error e) (fuel : Nat) (hf : 3 ≤ fuel) :
    exec svc fuel st s (AdminPanel.handleCreate formData) =
      { state := st, server := s1, stack := [], inflight := [], nextTask := 1
        trace := [.issued 0 (api.createProductRequest formData),
          .completed 0 (api.createProductRequest formData) r1, .rejected 0 e] } := by
  refine Machine.run_eq_of_rest svc 3 fuel _ _ ?_ ⟨rfl, rfl⟩ hf
  rcases r1 with e1 | ⟨status, _ | t⟩ <;> simp [decoded] at hr1 <;> subst hr1 <;>
  simp [Machine.run, Machine.step, Machine.start, AdminPanel.handleCreate,
    api.createProduct, Async.awaitFetch, Async.await, h1, Response.json]

/-- The handler handleUpdate on a form object when the PUT succeeds: the list
request goes out next, the selection is cleared, and the refresh ends as its
result r2 says. -/
theorem AdminPanel.handleUpdate_ok (st : AdminPanel.State) (props : List (String × JSValue))
    (s s1 s2 : σ) (r1 r2 : FetchResult) (v : JSValue)
    (h1 : svc.handle s (api.updateProductRequest (lookup "id" props) (obj props)) = (s1, r1))
    (hr1 : decoded r1 = .ok v)
    (h2 : svc.handle s1 api.fetchProductsRequest = (s2, r2))
    (fuel : Nat) (hf : 9 ≤ fuel) :
    exec svc fuel st s (AdminPanel.handleUpdate (obj props)) =
      { state := { products := (AdminPanel.refreshed st r2).products, selectedProduct := null }
        server := s2, stack := [], inflight := [], nextTask := 2
        trace := [.issued 0 (api.updateProductRequest (lookup "id" props) (obj props)),
          .completed 0 (api.updateProductRequest (lookup "id" props) (obj props)) r1,
          .issued 1 api.fetchProductsRequest, .resolved 0 .undefined,
          .completed 1 api.fetchProductsRequest r2] ++ refreshEnd 1 r2 } := by
  refine Machine.run_eq_of_rest svc 9 fuel _ _ ?_ ⟨rfl, rfl⟩ hf
  rcases r1 with e | ⟨status, _ | t⟩ <;> simp [decoded] at hr1
  subst hr1
  rcases r2 with e2 | ⟨status2, _ | t2⟩ <;>
  simp [Machine.run, Machine.step, Machine.start, AdminPanel.handleUpdate, JSValue.get,
    AdminPanel.loadProducts, api.updateProduct, api.fetchProducts, Async.awaitFetch,
    Async.await, h1, h2, Response.json, Async.done, AdminPanel.setProducts,
    AdminPanel.setSelectedProduct, AdminPanel.refreshed, refreshEnd, decoded]

/-- The handler handleUpdate on a form object when the PUT fails with e: the
handler stops there, before the refresh and before the selection is cleared. -/
theorem AdminPanel.handleUpdate_fail (st : AdminPanel.State) (props : List (String × JSValue))
    (s s1 : σ) (r1 : FetchResult) (e : JSError)
    (h1 : svc.handle s (api.updateProductRequest (lookup "id" props) (obj props)) = (s1, r1))
    (hr1 : decoded r1 = .error e) (fuel : Nat) (hf : 3 ≤ fuel) :
    exec svc fuel st s (AdminPanel.handleUpdate (obj props)) =
      { state := st, server := s1, stack := [], inflight := [], nextTask := 1
        trace := [.issued 0 (api.updateProductRequest (lookup "id" props) (obj props)),
          .completed 0 (api.updateProductRequest (lookup "id" props) (obj props)) r1,
          .rejected 0 e] } := by
  refine Machine.run_eq_of_rest svc 3 fuel _ _ ?_ ⟨rfl, rfl⟩ hf
  rcases r1 with e1 | ⟨status, _ | t⟩ <;> simp [decoded] at hr1 <;> subst hr1 <;>
  simp [Machine.run, Machine.step, Machine.start, AdminPanel.handleUpdate, JSValue.get,
    api.updateProduct, Async.awaitFetch, Async.await, h1, Response.json]

/-- The handler handleDelete when the DELETE goes through (the body of the
response is not read): the list request goes out next, the selection is left
as it is, and the refresh ends as its result r2 says. -/
theorem AdminPanel.handleDelete_ok (st : AdminPanel.State) (id : JSValue)
    (s s1 s2 : σ) (res : Response) (r2 : FetchResult)
    (h1 : svc.handle s (api.deleteProductRequest id) = (s1, .ok res))
    (h2 : svc.handle s1 api.fetchProductsRequest = (s2, r2))
    (fuel : Nat) (hf : 8 ≤ fuel) :
    exec svc fuel st s (AdminPanel.handleDelete id) =
      { state := AdminPanel.refreshed st r2
        server := s2, stack := [], inflight := [], nextTask := 2
        trace := [.issued 0 (api.deleteProductRequest id),
          .completed 0 (api.deleteProductRequest id) (.ok res),
          .issued 1 api.fetchProductsRequest, .resolved 0 .undefined,
          .completed 1 api.fetchProductsRequest r2] ++ refreshEnd 1 r2 } := by
  refine Machine.run_eq_of_rest svc 8 fuel _ _ ?_ ⟨rfl, rfl⟩ hf
  rcases r2 with e2 | ⟨status2, _ | t2⟩ <;>
  simp [Machine.run, Machine.step, Machine.start, AdminPanel.handleDelete,
    AdminPanel.loadProducts, api.deleteProduct, api.fetchProducts, Async.awaitFetch,
    Async.await, h1, h2, Response.json, Async.done, AdminPanel.setProducts,
    AdminPanel.refreshed, refreshEnd, decoded]

/-- The handler handleDelete when the DELETE fails with e: the handler stops
there. -/
theorem AdminPanel.handleDelete_fail (st : AdminPanel.State) (id : JSValue)
    (s s1 : σ) (e : JSError)
    (h1 : svc.handle s (api.deleteProductRequest id) = (s1, .error e))
    (fuel : Nat) (hf : 3 ≤ fuel) :
    exec svc fuel st s (AdminPanel.handleDelete id) =
      { state := st, server := s1, stack := [], inflight := [], nextTask := 1
        trace := [.issued 0 (api.deleteProductRequest id),
          .completed 0 (api.deleteProductRequest id) (.error e), .rejected 0 e] } := by
  refine Machine.run_eq_of_rest svc 3 fuel _ _ ?_ ⟨rfl, rfl⟩ hf
  simp [Machine.run, Machine.step, Machine.start, AdminPanel.handleDelete,
    api.deleteProduct, Async.awaitFetch, Async.await, h1]

end Runs

/-! ## Evaluating the model services -/

theorem offline_handle (s : Unit) (req : Request) :
    offline.handle s req = (s, .error (.typeError "Failed to fetch")) := rfl

theorem catalog_list (stored : List JSValue) :
    catalog.handle stored api.fetchProductsRequest =
      (stored, .ok { body := some (JSON.stringify (arr stored)) }) := by
  simp [catalog, api.fetchProductsRequest, Request.method]

theorem catalog_create (stored : List JSValue) (formData : JSValue) :
    catalog.handle stored (api.createProductRequest formData) =
      (stored ++ [formData],
        .ok { status := 201, body := some (JSON.stringify formData) }) := by
  simp [catalog, api.createProductRequest, Request.method, Request.body, JSON.parse,
    JSON.stringify]

theorem broken_handle (s : Unit) (req : Request) :
    broken.handle s req = (s, .ok refusal) := rfl

theorem readOnly_list (stored : List JSValue) :
    readOnly.handle stored api.fetchProductsRequest =
      (stored, .ok { body := some (JSON.stringify (arr stored)) }) := by
  simp [readOnly, api.fetchProductsRequest, Request.method]

theorem readOnly_create (stored : List JSValue) (formData : JSValue) :
    readOnly.handle stored (api.createProductRequest formData) = (stored, .ok refusal) := by
  simp [readOnly, api.createProductRequest, Request.method]

theorem readOnly_update (stored : List JSValue) (id formData : JSValue) :
    readOnly.handle stored (api.updateProductRequest id formData) = (stored, .ok refusal) := by
  simp [readOnly, api.updateProductRequest, Request.method]

theorem readOnly_delete (stored : List JSValue) (id : JSValue) :
    readOnly.handle stored (api.deleteProductRequest id) = (stored, .ok refusal) := by
  simp [readOnly, api.deleteProductRequest, Request.method]

theorem catalog_delete_only :
    catalog.handle [product "1" "Pen" 2 100] (api.deleteProductRequest (str "1")) =
      ([], .ok { body := some (JSON.stringify (obj [])) }) := by
  simp [catalog, api.deleteProductRequest, Request.method, itemUrl, recordId, product,
    JSValue.get, JSValue.lookup, JSValue.toStr, BASE_URL]

theorem catalog_update_only :
    catalog.handle [product "1" "Pen" 2 100]
        (api.updateProductRequest (str "1") (product "1" "Pen" 3 100)) =
      ([product "1" "Pen" 3 100],
        .ok { body := some (JSON.stringify (product "1" "Pen" 3 100)) }) := by
  simp [catalog, api.updateProductRequest, Request.method, Request.body, itemUrl, recordId,
    product, JSValue.get, JSValue.lookup, JSValue.toStr, BASE_URL, JSON.parse, JSON.stringify]

/-! ## Refresh -/

/-- C1, as the code has it (stale on a failure the client sees). When the
list request of a refresh fails in that fetch rejects or the body of the
response is not JSON, the run comes to rest with products equal to its prior
value, in AdminPanel.loadProducts and in ProductList.loadProducts alike, for
every prior state. In ProductList, loading is false afterwards, the failure
is logged, and the promise of loadProducts resolves: no rejection leaves the
refresh. -/
theorem refresh_failure_keeps_products {σ : Type} (svc : Service σ) (s s1 : σ)
    (r : FetchResult) (e : JSError)
    (h : svc.handle s api.fetchProductsRequest = (s1, r)) (hr : decoded r = .error e)
    (fuel : Nat) (hf : 5 ≤ fuel) :
    (∀ st : AdminPanel.State,
      (exec svc fuel st s AdminPanel.loadProducts).quiescent ∧
      (exec svc fuel st s AdminPanel.loadProducts).state.products = st.products) ∧
    (∀ st : ProductList.State,
      (exec svc fuel st s ProductList.loadProducts).quiescent ∧
      (exec svc fuel st s ProductList.loadProducts).state.products = st.products ∧
      (exec svc fuel st s ProductList.loadProducts).state.loading = false ∧
      (exec svc fuel st s ProductList.loadProducts).trace =
        [.issued 0 api.fetchProductsRequest, .completed 0 api.fetchProductsRequest r,
          .logged "Failed to load products:" e, .resolved 0 .undefined]) := by
  constructor
  · intro st
    rw [AdminPanel.loadProducts_admin_fail svc st s s1 r e h hr fuel (by omega)]
    exact ⟨⟨rfl, rfl⟩, rfl⟩
  · intro st
    rw [ProductList.loadProducts_list_fail svc st s s1 r e h hr fuel hf]
    exact ⟨⟨rfl, rfl⟩, rfl, rfl, rfl⟩

/-- C1 at a concrete input: the service cannot be reached and the component
holds one product. -/
theorem refresh_failure_keeps_products_witness :
    (exec offline 5 ⟨arr [product "1" "Pen" 2 100], null⟩ ()
      AdminPanel.loadProducts).state.products = arr [product "1" "Pen" 2 100] ∧
    (exec offline 5 ⟨arr [product "1" "Pen" 2 100], true⟩ ()
      ProductList.loadProducts).state.products = arr [product "1" "Pen" 2 100] ∧
    (exec offline 5 ⟨arr [product "1" "Pen" 2 100], true⟩ ()
      ProductList.loadProducts).state.loading = false :=
  have w := refresh_failure_keeps_products offline () () _ _
    (offline_handle () api.fetchProductsRequest) rfl 5 (Nat.le_refl 5)
  ⟨(w.1 ⟨arr [product "1" "Pen" 2 100], null⟩).2,
    (w.2 ⟨arr [product "1" "Pen" 2 100], true⟩).2.1,
    (w.2 ⟨arr [product "1" "Pen" 2 100], true⟩).2.2.1⟩

/-- C1 as stated fails. The service refuses the list request with status 500
and a JSON body that is no list; the component holds the pen. The status is
not looked at, so both refresh functions put the decoded body in products:
products is no longer the list that held the pen. -/
theorem refresh_failure_keeps_products_counterexample :
    (broken.handle () api.fetchProductsRequest).2 = .ok refusal ∧
    refusal.status = 500 ∧
    (exec broken 5 ⟨arr [product "1" "Pen" 2 100], null⟩ ()
      AdminPanel.loadProducts).state.products = obj [("error", str "boom")] ∧
    (exec broken 5 ⟨arr [product "1" "Pen" 2 100], null⟩ ()
      AdminPanel.loadProducts).state.products ≠ arr [product "1" "Pen" 2 100] ∧
    (exec broken 5 ⟨arr [product "1" "Pen" 2 100], false⟩ ()
      ProductList.loadProducts).state.products = obj [("error", str "boom")] ∧
    (exec broken 5 ⟨arr [product "1" "Pen" 2 100], false⟩ ()
      ProductList.loadProducts).state.products ≠ arr [product "1" "Pen" 2 100] := by
  rw [AdminPanel.loadProducts_admin_ok broken _ () () _ (obj [("error", str "boom")])
      (broken_handle () _) rfl 5 (by decide),
    ProductList.loadProducts_list_ok broken _ () () _ (obj [("error", str "boom")])
      (broken_handle () _) rfl 5 (Nat.le_refl 5)]
  simp [broken_handle, refusal]

/-- C2 (wholesale replace). When the list request of a refresh succeeds with
the list L, the run comes to rest with products equal to L, element for
element and in the same order, whatever the prior state was, in
AdminPanel.loadProducts and in ProductList.loadProducts alike; L may be
empty. -/
theorem refresh_replaces_products {σ : Type} (svc : Service σ) (s s1 : σ)
    (r : FetchResult) (L : List JSValue)
    (h : svc.handle s api.fetchProductsRequest = (s1, r)) (hr : decoded r = .ok (arr L))
    (fuel : Nat) (hf : 5 ≤ fuel) :
    (∀ st : AdminPanel.State,
      (exec svc fuel st s AdminPanel.loadProducts).quiescent ∧
      (exec svc fuel st s AdminPanel.loadProducts).state.products = arr L) ∧
    (∀ st : ProductList.State,
      (exec svc fuel st s ProductList.loadProducts).quiescent ∧
      (exec svc fuel st s ProductList.loadProducts).state.products = arr L) := by
  constructor
  · intro st
    rw [AdminPanel.loadProducts_admin_ok svc st s s1 r (arr L) h hr fuel (by omega)]
    exact ⟨⟨rfl, rfl⟩, rfl⟩
  · intro st
    rw [ProductList.loadProducts_list_ok svc st s s1 r (arr L) h hr fuel hf]
    exact ⟨⟨rfl, rfl⟩, rfl⟩

/-- C2 at a concrete input: the service holds nothing and the component holds
one product, so the refresh empties the list. -/
theorem refresh_replaces_products_witness :
    (exec catalog 5 ⟨arr [product "1" "Pen" 2 100], null⟩ []
      AdminPanel.loadProducts).state.products = arr [] ∧
    (exec catalog 5 ⟨arr [product "1" "Pen" 2 100], true⟩ []
      ProductList.loadProducts).state.products = arr [] :=
  have w := refresh_replaces_products catalog [] [] _ [] (catalog_list []) rfl 5
    (Nat.le_refl 5)
  ⟨(w.1 ⟨arr [product "1" "Pen" 2 100], null⟩).2,
    (w.2 ⟨arr [product "1" "Pen" 2 100], true⟩).2⟩

/-! ## Mutations -/

theorem issuedRequests_refreshEnd (t : Nat) (r : FetchResult) :
    issuedRequests (refreshEnd t r) = [] := by
  unfold refreshEnd
  cases decoded r <;> rfl

/-- The trace every successful mutation leaves has the shape
mutationThenRefresh asks for. -/
theorem mutationThenRefresh_of_trace (mreq : Request) (r1 r2 : FetchResult) :
    mutationThenRefresh
      ([.issued 0 mreq, .completed 0 mreq r1, .issued 1 api.fetchProductsRequest,
        .resolved 0 .undefined, .completed 1 api.fetchProductsRequest r2] ++ refreshEnd 1 r2)
      mreq r1 := by
  refine ⟨?_, _, rfl⟩
  simp [issuedRequests, issuedRequests_refreshEnd]

/-- C3 (selection clears on submit). From a state whose selection is any
product P, the handler handleUpdate on any draft object whose update request
succeeds runs to rest in a state whose selection is null, whatever the list
request of the refresh that follows returns. -/
theorem update_clears_selection {σ : Type} (svc : Service σ) (products P : JSValue)
    (props : List (String × JSValue)) (s s1 s2 : σ) (r1 r2 : FetchResult) (v : JSValue)
    (h1 : svc.handle s (api.updateProductRequest (lookup "id" props) (obj props)) = (s1, r1))
    (hr1 : decoded r1 = .ok v)
    (h2 : svc.handle s1 api.fetchProductsRequest = (s2, r2))
    (fuel : Nat) (hf : 9 ≤ fuel) :
    (exec svc fuel ⟨products, P⟩ s (AdminPanel.handleUpdate (obj props))).quiescent ∧
    (exec svc fuel ⟨products, P⟩ s
      (AdminPanel.handleUpdate (obj props))).state.selectedProduct = null := by
  rw [AdminPanel.handleUpdate_ok svc ⟨products, P⟩ props s s1 s2 r1 r2 v h1 hr1 h2 fuel hf]
  exact ⟨⟨rfl, rfl⟩, rfl⟩

/-- C3 at a concrete input: the pen is selected and its price is edited. -/
theorem update_clears_selection_witness :
    (exec catalog 9 ⟨arr [product "1" "Pen" 2 100], product "1" "Pen" 2 100⟩
      [product "1" "Pen" 2 100]
      (AdminPanel.handleUpdate (product "1" "Pen" 3 100))).state.selectedProduct = null :=
  (update_clears_selection catalog (arr [product "1" "Pen" 2 100]) (product "1" "Pen" 2 100)
    [("id", str "1"), ("name", str "Pen"), ("price", num 3), ("quantity", num 100)]
    [product "1" "Pen" 2 100] _ _ _ _ _ catalog_update_only rfl (catalog_list _) 9
    (Nat.le_refl 9)).2

/-- C4, as the code has it (delete leaves the selection alone). From a state
whose selection is a product P, clicking Delete on P, when the delete request
goes through, runs to rest in a state whose selection is still P, whatever
the list request of the refresh that follows returns. -/
theorem delete_keeps_selection {σ : Type} (svc : Service σ) (products : JSValue)
    (pprops : List (String × JSValue)) (s s1 s2 : σ) (res : Response) (r2 : FetchResult)
    (h1 : svc.handle s (api.deleteProductRequest (lookup "id" pprops)) = (s1, .ok res))
    (h2 : svc.handle s1 api.fetchProductsRequest = (s2, r2))
    (fuel : Nat) (hf : 8 ≤ fuel) :
    (exec svc fuel ⟨products, obj pprops⟩ s
      (AdminPanel.onDeleteClick (obj pprops))).quiescent ∧
    (exec svc fuel ⟨products, obj pprops⟩ s
      (AdminPanel.onDeleteClick (obj pprops))).state.selectedProduct = obj pprops := by
  have hcode : AdminPanel.onDeleteClick (obj pprops) =
      AdminPanel.handleDelete (lookup "id" pprops) := rfl
  rw [hcode, AdminPanel.handleDelete_ok svc ⟨products, obj pprops⟩ _ s s1 s2 res r2 h1 h2
    fuel hf]
  refine ⟨⟨rfl, rfl⟩, ?_⟩
  unfold AdminPanel.refreshed
  cases decoded r2 <;> rfl

/-- C4 as amended, at a concrete input: the pen is selected and deleted. -/
theorem delete_keeps_selection_witness :
    (exec catalog 8 ⟨arr [product "1" "Pen" 2 100], product "1" "Pen" 2 100⟩
      [product "1" "Pen" 2 100]
      (AdminPanel.onDeleteClick (product "1" "Pen" 2 100))).state.selectedProduct =
      product "1" "Pen" 2 100 :=
  (delete_keeps_selection catalog (arr [product "1" "Pen" 2 100])
    [("id", str "1"), ("name", str "Pen"), ("price", num 2), ("quantity", num 100)]
    [product "1" "Pen" 2 100] _ _ _ _ catalog_delete_only (catalog_list _) 8
    (Nat.le_refl 8)).2

/-- C4 as stated fails. The service holds the pen, the pen is listed and
selected, and handleDelete is called with its id: the delete goes through
(the service and the list are empty afterwards), and the selection is still
the pen, not null. -/
theorem delete_clears_selection_counterexample :
    (exec catalog 8 ⟨arr [product "1" "Pen" 2 100], product "1" "Pen" 2 100⟩
      [product "1" "Pen" 2 100] (AdminPanel.handleDelete (str "1"))).server = [] ∧
    (exec catalog 8 ⟨arr [product "1" "Pen" 2 100], product "1" "Pen" 2 100⟩
      [product "1" "Pen" 2 100] (AdminPanel.handleDelete (str "1"))).state.products =
      arr [] ∧
    (exec catalog 8 ⟨arr [product "1" "Pen" 2 100], product "1" "Pen" 2 100⟩
      [product "1" "Pen" 2 100] (AdminPanel.handleDelete (str "1"))).state.selectedProduct ≠
      null := by
  rw [AdminPanel.handleDelete_ok catalog _ _ _ _ _ _ _ catalog_delete_only (catalog_list _) 8
    (Nat.le_refl 8)]
  simp [AdminPanel.refreshed, decoded, JSON.parse, JSON.stringify, AdminPanel.setProducts,
    product]

/-- C5, as the code has it (a mutation the client sees fail is atomic). For
each of handleCreate, handleUpdate and handleDelete and every state: when the
mutating request fails in that fetch rejects or, for create and update, the
body of the response is not JSON, the run comes to rest with products and
the selection equal to their prior values, and the mutating request is the
only request issued: no GET goes out. -/
theorem failed_mutation_is_atomic {σ : Type} (svc : Service σ) (st : AdminPanel.State)
    (s s1 : σ) (e : JSError) (fuel : Nat) (hf : 3 ≤ fuel) :
    (∀ (formData : JSValue) (r1 : FetchResult),
      svc.handle s (api.createProductRequest formData) = (s1, r1) →
      decoded r1 = .error e →
      (exec svc fuel st s (AdminPanel.handleCreate formData)).quiescent ∧
      (exec svc fuel st s (AdminPanel.handleCreate formData)).state.products = st.products ∧
      (exec svc fuel st s (AdminPanel.handleCreate formData)).state.selectedProduct =
        st.selectedProduct ∧
      issuedRequests (exec svc fuel st s (AdminPanel.handleCreate formData)).trace =
        [api.createProductRequest formData] ∧
      ∀ q ∈ issuedRequests (exec svc fuel st s (AdminPanel.handleCreate formData)).trace,
        q.method ≠ "GET") ∧
    (∀ (props : List (String × JSValue)) (r1 : FetchResult),
      svc.handle s (api.updateProductRequest (lookup "id" props) (obj props)) = (s1, r1) →
      decoded r1 = .error e →
      (exec svc fuel st s (AdminPanel.handleUpdate (obj props))).quiescent ∧
      (exec svc fuel st s (AdminPanel.handleUpdate (obj props))).state.products =
        st.products ∧
      (exec svc fuel st s (AdminPanel.handleUpdate (obj props))).state.selectedProduct =
        st.selectedProduct ∧
      issuedRequests (exec svc fuel st s (AdminPanel.handleUpdate (obj props))).trace =
        [api.updateProductRequest (lookup "id" props) (obj props)] ∧
      ∀ q ∈ issuedRequests (exec svc fuel st s (AdminPanel.handleUpdate (obj props))).trace,
        q.method ≠ "GET") ∧
    (∀ id : JSValue,
      svc.handle s (api.deleteProductRequest id) = (s1, .error e) →
      (exec svc fuel st s (AdminPanel.handleDelete id)).quiescent ∧
      (exec svc fuel st s (AdminPanel.handleDelete id)).state.products = st.products ∧
      (exec svc fuel st s (AdminPanel.handleDelete id)).state.selectedProduct =
        st.selectedProduct ∧
      issuedRequests (exec svc fuel st s (AdminPanel.handleDelete id)).trace =
        [api.deleteProductRequest id] ∧
      ∀ q ∈ issuedRequests (exec svc fuel st s (AdminPanel.handleDelete id)).trace,
        q.method ≠ "GET") := by
  refine ⟨?_, ?_, ?_⟩
  · intro formData r1 h1 hr1
    rw [AdminPanel.handleCreate_fail svc st formData s s1 r1 e h1 hr1 fuel hf]
    refine ⟨⟨rfl, rfl⟩, rfl, rfl, rfl, ?_⟩
    simp [issuedRequests, api.createProductRequest, Request.method]
  · intro props r1 h1 hr1
    rw [AdminPanel.handleUpdate_fail svc st props s s1 r1 e h1 hr1 fuel hf]
    refine ⟨⟨rfl, rfl⟩, rfl, rfl, rfl, ?_⟩
    simp [issuedRequests, api.updateProductRequest, Request.method]
  · intro id h1
    rw [AdminPanel.handleDelete_fail svc st id s s1 e h1 fuel hf]
    refine ⟨⟨rfl, rfl⟩, rfl, rfl, rfl, ?_⟩
    simp [issuedRequests, api.deleteProductRequest, Request.method]

/-- C5 at a concrete input: the service cannot be reached, the pen is listed
and selected, and each of the three handlers is tried. -/
theorem failed_mutation_is_atomic_witness :
    (exec offline 3 ⟨arr [product "1" "Pen" 2 100], product "1" "Pen" 2 100⟩ ()
      (AdminPanel.handleCreate (product "2" "Mug" 9 10))).state.products =
      arr [product "1" "Pen" 2 100] ∧
    (exec offline 3 ⟨arr [product "1" "Pen" 2 100], product "1" "Pen" 2 100⟩ ()
      (AdminPanel.handleUpdate (product "1" "Pen" 3 100))).state.selectedProduct =
      product "1" "Pen" 2 100 ∧
    issuedRequests (exec offline 3 ⟨arr [product "1" "Pen" 2 100], product "1" "Pen" 2 100⟩ ()
      (AdminPanel.handleDelete (str "1"))).trace = [api.deleteProductRequest (str "1")] :=
  have w := failed_mutation_is_atomic offline
    ⟨arr [product "1" "Pen" 2 100], product "1" "Pen" 2 100⟩ () () _ 3 (Nat.le_refl 3)
  ⟨(w.1 (product "2" "Mug" 9 10) _ (offline_handle () _) rfl).2.1,
    (w.2.1 [("id", str "1"), ("name", str "Pen"), ("price", num 3), ("quantity", num 100)] _
      (offline_handle () _) rfl).2.2.1,
    (w.2.2 (str "1") (offline_handle () _)).2.2.2.1⟩

/-- C5 as stated fails. The service lists the pen and refuses every write with
status 500 and a JSON body; the pen is listed and selected. The status is not
looked at: handleUpdate goes on to the refresh and clears the selection, and
handleCreate and handleDelete issue the list request as well. -/
theorem failed_mutation_is_atomic_counterexample :
    (readOnly.handle [product "1" "Pen" 2 100]
      (api.updateProductRequest (str "1") (product "1" "Pen" 3 100))).2 = .ok refusal ∧
    refusal.status = 500 ∧
    (exec readOnly 9 ⟨arr [product "1" "Pen" 2 100], product "1" "Pen" 2 100⟩
      [product "1" "Pen" 2 100]
      (AdminPanel.handleUpdate (product "1" "Pen" 3 100))).state.selectedProduct = null ∧
    null ≠ product "1" "Pen" 2 100 ∧
    issuedRequests (exec readOnly 9 ⟨arr [product "1" "Pen" 2 100], product "1" "Pen" 2 100⟩
      [product "1" "Pen" 2 100] (AdminPanel.handleUpdate (product "1" "Pen" 3 100))).trace =
      [api.updateProductRequest (str "1") (product "1" "Pen" 3 100),
        api.fetchProductsRequest] ∧
    issuedRequests (exec readOnly 9 ⟨arr [product "1" "Pen" 2 100], product "1" "Pen" 2 100⟩
      [product "1" "Pen" 2 100] (AdminPanel.handleCreate (product "2" "Mug" 9 10))).trace =
      [api.createProductRequest (product "2" "Mug" 9 10), api.fetchProductsRequest] ∧
    issuedRequests (exec readOnly 9 ⟨arr [product "1" "Pen" 2 100], product "1" "Pen" 2 100⟩
      [product "1" "Pen" 2 100] (AdminPanel.handleDelete (str "1"))).trace =
      [api.deleteProductRequest (str "1"), api.fetchProductsRequest] := by
  have hu := AdminPanel.handleUpdate_ok readOnly
    ⟨arr [product "1" "Pen" 2 100], product "1" "Pen" 2 100⟩
    [("id", str "1"), ("name", str "Pen"), ("price", num 3), ("quantity", num 100)]
    [product "1" "Pen" 2 100] _ _ _ _ (obj [("error", str "boom")])
    (readOnly_update _ _ _) rfl (readOnly_list _) 9 (Nat.le_refl 9)
  have hc := AdminPanel.handleCreate_ok readOnly
    ⟨arr [product "1" "Pen" 2 100], product "1" "Pen" 2 100⟩ (product "2" "Mug" 9 10)
    [product "1" "Pen" 2 100] _ _ _ _ (obj [("error", str "boom")])
    (readOnly_create _ _) rfl (readOnly_list _) 9 (by decide)
  have hd := AdminPanel.handleDelete_ok readOnly
    ⟨arr [product "1" "Pen" 2 100], product "1" "Pen" 2 100⟩ (str "1")
    [product "1" "Pen" 2 100] _ _ _ _ (readOnly_delete _ _) (readOnly_list _) 9 (by decide)
  refine ⟨by rw [readOnly_update], rfl, ?_, ?_, ?_, ?_, ?_⟩
  · exact (congrArg (fun m => m.state.selectedProduct) hu).trans rfl
  · simp [product]
  · refine Eq.trans (congrArg (fun m => issuedRequests m.trace) hu) ?_
    simp [issuedRequests, issuedRequests_refreshEnd, JSValue.lookup, product]
  · refine Eq.trans (congrArg (fun m => issuedRequests m.trace) hc) ?_
    simp [issuedRequests, issuedRequests_refreshEnd, JSValue.lookup, product]
  · refine Eq.trans (congrArg (fun m => issuedRequests m.trace) hd) ?_
    simp [issuedRequests, issuedRequests_refreshEnd, JSValue.lookup, product]

/-- C6 (mutation, then refresh). For each of handleCreate, handleUpdate and
handleDelete and every state: when the mutating request succeeds, the run
comes to rest and its trace has exactly two requests, the mutating request
and then the list request, and begins with the mutating request going out,
the mutating request settling, and only then the list request going out,
whatever the list request returns. -/
theorem mutation_completes_before_refresh {σ : Type} (svc : Service σ)
    (st : AdminPanel.State) (s s1 s2 : σ) (r2 : FetchResult)
    (h2 : svc.handle s1 api.fetchProductsRequest = (s2, r2)) (fuel : Nat) (hf : 9 ≤ fuel) :
    (∀ (formData : JSValue) (r1 : FetchResult) (v : JSValue),
      svc.handle s (api.createProductRequest formData) = (s1, r1) →
      decoded r1 = .ok v →
      (exec svc fuel st s (AdminPanel.handleCreate formData)).quiescent ∧
      mutationThenRefresh (exec svc fuel st s (AdminPanel.handleCreate formData)).trace
        (api.createProductRequest formData) r1) ∧
    (∀ (props : List (String × JSValue)) (r1 : FetchResult) (v : JSValue),
      svc.handle s (api.updateProductRequest (lookup "id" props) (obj props)) = (s1, r1) →
      decoded r1 = .ok v →
      (exec svc fuel st s (AdminPanel.handleUpdate (obj props))).quiescent ∧
      mutationThenRefresh (exec svc fuel st s (AdminPanel.handleUpdate (obj props))).trace
        (api.updateProductRequest (lookup "id" props) (obj props)) r1) ∧
    (∀ (id : JSValue) (res : Response),
      svc.handle s (api.deleteProductRequest id) = (s1, .ok res) →
      (exec svc fuel st s (AdminPanel.handleDelete id)).quiescent ∧
      mutationThenRefresh (exec svc fuel st s (AdminPanel.handleDelete id)).trace
        (api.deleteProductRequest id) (.ok res)) := by
  refine ⟨?_, ?_, ?_⟩
  · intro formData r1 v h1 hr1
    rw [AdminPanel.handleCreate_ok svc st formData s s1 s2 r1 r2 v h1 hr1 h2 fuel (by omega)]
    exact ⟨⟨rfl, rfl⟩, mutationThenRefresh_of_trace _ r1 r2⟩
  · intro props r1 v h1 hr1
    rw [AdminPanel.handleUpdate_ok svc st props s s1 s2 r1 r2 v h1 hr1 h2 fuel hf]
    exact ⟨⟨rfl, rfl⟩, mutationThenRefresh_of_trace _ r1 r2⟩
  · intro id res h1
    rw [AdminPanel.handleDelete_ok svc st id s s1 s2 res r2 h1 h2 fuel (by omega)]
    exact ⟨⟨rfl, rfl⟩, mutationThenRefresh_of_trace _ (.ok res) r2⟩

/-- C6 at a concrete input: the service holds the pen and the mug is
created. -/
theorem mutation_completes_before_refresh_witness :
    mutationThenRefresh
      (exec catalog 9 ⟨arr [product "1" "Pen" 2 100], null⟩ [product "1" "Pen" 2 100]
        (AdminPanel.handleCreate (product "2" "Mug" 9 10))).trace
      (api.createProductRequest (product "2" "Mug" 9 10))
      (.ok { status := 201, body := some (JSON.stringify (product "2" "Mug" 9 10)) }) :=
  ((mutation_completes_before_refresh catalog ⟨arr [product "1" "Pen" 2 100], null⟩
    [product "1" "Pen" 2 100] _ _ _ (catalog_list _) 9 (Nat.le_refl 9)).1
    (product "2" "Mug" 9 10) _ (product "2" "Mug" 9 10) (catalog_create _ _) rfl).2

/-! ## Catalog client -/

/-- A client function that awaits one fetch and then returns or throws issues
that request and no other, whatever the service answers. -/
theorem issuedRequests_awaitFetch {S σ : Type} (svc : Service σ) (st : S) (s : σ)
    (req : Request) (k : Response → Async S)
    (hk : ∀ res, (∃ v, k res = .resolve v) ∨ (∃ e, k res = .reject e)) (fuel : Nat) :
    issuedRequests (exec svc (fuel + 3) st s (.awaitFetch req k)).trace = [req] := by
  have h3 : (Machine.run svc 3 (Machine.start st s (.awaitFetch req k))).quiescent ∧
      issuedRequests (Machine.run svc 3 (Machine.start st s (.awaitFetch req k))).trace =
        [req] := by
    rcases hh : svc.handle s req with ⟨s1, r⟩
    rcases r with e | res
    · simp [Machine.run, Machine.step, Machine.start, Async.awaitFetch, hh,
        Machine.quiescent, issuedRequests]
    · rcases hk res with ⟨v, hv⟩ | ⟨e, he⟩
      · simp [Machine.run, Machine.step, Machine.start, Async.awaitFetch, hh, hv,
          Machine.quiescent, issuedRequests]
      · simp [Machine.run, Machine.step, Machine.start, Async.awaitFetch, hh, he,
          Machine.quiescent, issuedRequests]
  unfold exec
  rw [Nat.add_comm, Machine.run_add, Machine.run_of_quiescent svc fuel _ h3.1]
  exact h3.2

theorem Response.json_settles {S : Type} (res : Response) :
    (∃ v, (res.json : Async S) = .resolve v) ∨ (∃ e, (res.json : Async S) = .reject e) := by
  unfold Response.json
  cases res.body with
  | none => exact Or.inr ⟨_, rfl⟩
  | some t => exact Or.inl ⟨_, rfl⟩

/-- C7 (request mapping). For every draft D and every id string, against
every service and from every state: list is GET on BASE_URL/products with no
body; create is POST on BASE_URL/products with the JSON text of D as body;
update is PUT on BASE_URL/products/ followed by the id as given, with the JSON
text of D as body; delete is DELETE on the same URL with no body; the two
calls with a body declare it as application/json; and each of the four client
functions issues exactly its one request. -/
theorem client_request_mapping {S σ : Type} (svc : Service σ) (st : S) (s : σ)
    (D : JSValue) (id : String) (fuel : Nat) :
    (api.fetchProductsRequest.method = "GET" ∧
      api.fetchProductsRequest.url = "http://localhost:3000/products" ∧
      api.fetchProductsRequest.body = none ∧
      issuedRequests (exec svc (fuel + 3) st s api.fetchProducts).trace =
        [api.fetchProductsRequest]) ∧
    ((api.createProductRequest D).method = "POST" ∧
      (api.createProductRequest D).url = "http://localhost:3000/products" ∧
      (api.createProductRequest D).body = some (JSON.stringify D) ∧
      (api.createProductRequest D).init.headers = [("Content-Type", "application/json")] ∧
      issuedRequests (exec svc (fuel + 3) st s (api.createProduct D)).trace =
        [api.createProductRequest D]) ∧
    ((api.updateProductRequest (str id) D).method = "PUT" ∧
      (api.updateProductRequest (str id) D).url = "http://localhost:3000/products/" ++ id ∧
      (api.updateProductRequest (str id) D).body = some (JSON.stringify D) ∧
      (api.updateProductRequest (str id) D).init.headers =
        [("Content-Type", "application/json")] ∧
      issuedRequests (exec svc (fuel + 3) st s (api.updateProduct (str id) D)).trace =
        [api.updateProductRequest (str id) D]) ∧
    ((api.deleteProductRequest (str id)).method = "DELETE" ∧
      (api.deleteProductRequest (str id)).url = "http://localhost:3000/products/" ++ id ∧
      (api.deleteProductRequest (str id)).body = none ∧
      issuedRequests (exec svc (fuel + 3) st s (api.deleteProduct (str id))).trace =
        [api.deleteProductRequest (str id)]) := by
  have hbase : BASE_URL ++ "/products" = "http://localhost:3000/products" := by decide
  refine ⟨⟨rfl, hbase, rfl, ?_⟩, ⟨rfl, hbase, rfl, rfl, ?_⟩, ⟨rfl, ?_, rfl, rfl, ?_⟩,
    ⟨rfl, ?_, rfl, ?_⟩⟩
  · exact issuedRequests_awaitFetch svc st s _ _ Response.json_settles fuel
  · exact issuedRequests_awaitFetch svc st s _ _ Response.json_settles fuel
  · simp [api.updateProductRequest, JSValue.toStr, BASE_URL]
  · exact issuedRequests_awaitFetch svc st s _ _ Response.json_settles fuel
  · simp [api.deleteProductRequest, JSValue.toStr, BASE_URL]
  · exact issuedRequests_awaitFetch svc st s _ _ (fun _ => Or.inl ⟨_, rfl⟩) fuel

/-! ## ProductForm -/

/-- When the initialData property is left out, the parameter default applies
and the draft is empty. -/
theorem ProductForm.formData_of_undefined :
    ProductForm.formData undefined =
      .ok (obj [("id", str ""), ("name", str ""), ("price", str ""), ("quantity", str "")]) :=
  rfl

/-- A product whose name is not empty and whose price and quantity are not
zero is copied into the draft field for field. -/
theorem ProductForm.formData_of_truthy (id name : String) (price quantity : ℚ)
    (hname : name ≠ "") (hprice : price ≠ 0) (hquantity : quantity ≠ 0) :
    ProductForm.formData (product id name price quantity) =
      .ok (product id name price quantity) := by
  by_cases hid : id = "" <;>
  simp [ProductForm.formData, product, JSValue.withDefault, JSValue.get, JSValue.lookup,
    JSValue.or, JSValue.toBoolean, bind, Except.bind, pure, Except.pure, hname, hprice,
    hquantity, hid]

/-- C8, on the code. AdminPanel starts with selectedProduct null and hands it
to ProductForm as initialData; the parameter default does not replace null,
so reading initialData.id throws a TypeError and no draft is built. -/
theorem create_mode_form_throws :
    AdminPanel.formInitialData AdminPanel.State.initial = null ∧
    ProductForm.formData (AdminPanel.formInitialData AdminPanel.State.initial) =
      .error (.typeError "Cannot read properties of null (reading 'id')") :=
  ⟨rfl, rfl⟩

/-- C9, on the code. For the product with id 1, name Pen, price 2 and
quantity 0, the draft has the empty string as quantity, not 0; id, name and
price are copied. -/
theorem edit_mode_drops_zero_quantity :
    ProductForm.formData (product "1" "Pen" 2 0) =
      .ok (obj [("id", str "1"), ("name", str "Pen"), ("price", num 2),
        ("quantity", str "")]) ∧
    ProductForm.formData (product "1" "Pen" 2 0) ≠ .ok (product "1" "Pen" 2 0) := by
  have h : ProductForm.formData (product "1" "Pen" 2 0) =
      .ok (obj [("id", str "1"), ("name", str "Pen"), ("price", num 2),
        ("quantity", str "")]) := by
    simp [ProductForm.formData, product, JSValue.withDefault, JSValue.get, JSValue.lookup,
      JSValue.or, JSValue.toBoolean, bind, Except.bind, pure, Except.pure]
  refine ⟨h, ?_⟩
  rw [h]
  simp [product]

/-! ## Create round trip -/

theorem JSValue.eq_of_beq_str (x : JSValue) (s : String) (h : x.beq (str s) = true) :
    x = str s := by
  cases x <;> simp [JSValue.beq] at h
  rw [h]

/-- A stored record whose id is not the id of the draft does not have the
fields of the draft. -/
theorem sameFields_eq_false_of_id (r : JSValue) (id name : String) (price quantity : ℚ)
    (h : r.get "id" ≠ .ok (str id)) : sameFields r (product id name price quantity) = false := by
  have hf : fieldEq "id" r (product id name price quantity) = false := by
    unfold fieldEq
    cases hr : r.get "id" with
    | error e => rfl
    | ok x =>
      have hd : (product id name price quantity).get "id" = .ok (str id) := rfl
      rw [hd]
      cases hb : x.beq (str id) with
      | false => simp [hb]
      | true =>
        exfalso
        apply h
        rw [hr, JSValue.eq_of_beq_str x id hb]
  simp [sameFields, hf]

theorem sameFields_self (id name : String) (price quantity : ℚ) :
    sameFields (product id name price quantity) (product id name price quantity) = true := by
  simp [sameFields, fieldEq, product, JSValue.get, JSValue.lookup, JSValue.beq]

/-- C10 (create round trip). Against the model service holding the records
stored, for every draft with string id and name and numeric price and
quantity whose id no stored record has, handleCreate runs to rest (its
refresh completed) with products equal to the stored records followed by the
draft; that list has exactly one record with the fields of the draft and
still has every record the service held before; and a further refresh leaves
the same list. -/
theorem create_round_trip (st : AdminPanel.State) (stored : List JSValue) (id name : String)
    (price quantity : ℚ) (hnew : ∀ r ∈ stored, r.get "id" ≠ .ok (str id))
    (fuel : Nat) (hf : 8 ≤ fuel) :
    (exec catalog fuel st stored
      (AdminPanel.handleCreate (product id name price quantity))).quiescent ∧
    (exec catalog fuel st stored
      (AdminPanel.handleCreate (product id name price quantity))).state.products =
      arr (stored ++ [product id name price quantity]) ∧
    (stored ++ [product id name price quantity]).countP
      (fun r => sameFields r (product id name price quantity)) = 1 ∧
    (∀ r ∈ stored, r ∈ stored ++ [product id name price quantity]) ∧
    (exec catalog fuel
      (exec catalog fuel st stored
        (AdminPanel.handleCreate (product id name price quantity))).state
      (exec catalog fuel st stored
        (AdminPanel.handleCreate (product id name price quantity))).server
      AdminPanel.loadProducts).state.products =
      arr (stored ++ [product id name price quantity]) := by
  rw [AdminPanel.handleCreate_ok catalog st _ stored _ _ _ _ _ (catalog_create _ _) rfl
    (catalog_list _) fuel hf]
  refine ⟨⟨rfl, rfl⟩, rfl, ?_, ?_, ?_⟩
  · rw [List.countP_append]
    have h0 : stored.countP (fun r => sameFields r (product id name price quantity)) = 0 := by
      rw [List.countP_eq_zero]
      intro r hr
      simp [sameFields_eq_false_of_id r id name price quantity (hnew r hr)]
    simp [h0, sameFields_self]
  · intro r hr
    exact List.mem_append_left _ hr
  · rw [AdminPanel.loadProducts_admin_ok catalog _ _ _ _ _ (catalog_list _) rfl fuel (by omega)]
    rfl

/-- C10 at the concrete scenario of the spec: the service holds the pen and
the mug is created; both records are listed, two in all. -/
theorem create_round_trip_witness :
    (exec catalog 8 ⟨arr [product "1" "Pen" 2 100], null⟩ [product "1" "Pen" 2 100]
      (AdminPanel.handleCreate (product "2" "Mug" 9 10))).state.products =
      arr [product "1" "Pen" 2 100, product "2" "Mug" 9 10] ∧
    [product "1" "Pen" 2 100, product "2" "Mug" 9 10].length = 2 ∧
    [product "1" "Pen" 2 100, product "2" "Mug" 9 10].countP
      (fun r => sameFields r (product "2" "Mug" 9 10)) = 1 :=
  have w := create_round_trip ⟨arr [product "1" "Pen" 2 100], null⟩ [product "1" "Pen" 2 100]
    "2" "Mug" 9 10
    (by simp [product, JSValue.get, JSValue.lookup]) 8 (Nat.le_refl 8)
  ⟨w.2.1, rfl, w.2.2.1⟩

end App
